import Mathlib

/-!
# Verification of the git-based watcher (createGitWatcher)

A shallow embedding of the git watcher module.  The watcher monitors git state
changes (commits and branch switches); on each trigger the handler
handleGitChange reads the repository state, classifies the transition against
the last known snapshot, and runs the matching reconciliation
(handleBranchChange or handleCommit), guarded by a boolean in-flight flag.

External calls (isDetachedHead, getGitState, getServerManifest, scanDirectory)
are modelled as oracles packaged in an environment record: each field holds the
outcome that call produces during one trigger, with Except capturing a thrown
exception.  The handlers are translated as pure functions from the watcher
state and the environment to a result that records the final mutable state,
the list of onStateChange emissions, the scan-pipeline invocations (with the
manifest argument each one received), and which code path ran.
-/

namespace GitWatcher

/-- Git state snapshot as produced by getGitState: branch, commit, detached flag. -/
structure GitStateSnapshot where
  branch : String
  commit : String
  isDetached : Bool
  deriving DecidableEq

/-- Remote manifest summary returned by getServerManifest. -/
structure ManifestSummary where
  totalFiles : Nat
  totalChunks : Nat
  lastUpdated : Nat
  deriving DecidableEq

/-- Progress record passed to the scanDirectory progress callback. -/
structure ScanProgress where
  filesProcessed : Nat
  filesTotal : Nat
  chunksIndexed : Nat
  deriving DecidableEq

/-- Result object returned by scanDirectory. -/
structure ScanResult where
  success : Bool
  filesProcessed : Nat
  chunksIndexed : Nat
  errors : List String
  deriving DecidableEq

/-- The status tag of an IndexerState payload. -/
inductive Status where
  | idle
  | scanning
  | watching
  | error
  deriving DecidableEq

/-- The manifest summary embedded in a watching payload. -/
structure ManifestInfo where
  totalFiles : Nat
  totalChunks : Nat
  lastUpdated : Nat
  deriving DecidableEq

/-- The payload passed to onStateChange. Optional fields default to none,
matching fields absent from the object literals in the source. -/
structure IndexerState where
  status : Status
  message : String
  gitBranch : Option String
  error : Option String := none
  lastSyncTime : Option Nat := none
  totalFiles : Option Nat := none
  totalChunks : Option Nat := none
  manifest : Option ManifestInfo := none
  deriving DecidableEq

/-- Outcomes of the external calls available to one trigger of the handler.
Except.error s models the call throwing with message s. -/
structure Env where
  isDetachedHead : Except String Bool
  getGitState : Except String (Option GitStateSnapshot)
  manifestFetch : Except String ManifestSummary
  scanOutcome : Except String ScanResult
  progressTicks : List ScanProgress
  refetchManifest : Except String ManifestSummary
  now : Nat

/-- Mutable watcher state owned by the closure: last known snapshot and the
in-flight flag. -/
structure WatcherState where
  currentState : Option GitStateSnapshot
  isProcessing : Bool
  deriving DecidableEq

/-- Observable outcome of one reconciliation handler: the onStateChange
emissions in order, and the scan invocations (each with its manifest argument). -/
structure ReconResult where
  emits : List IndexerState
  scanCalls : List (Option ManifestSummary)
  deriving DecidableEq

/-- The pre-scan manifest value: the fetched manifest, or none when the fetch
threw (the catch logs a warning and proceeds without a manifest). -/
def manifestOf (env : Env) : Option ManifestSummary :=
  match env.manifestFetch with
  | Except.ok m => some m
  | Except.error _ => none

/-- The post-scan re-fetched manifest, best effort. -/
def refetchedOf (env : Env) : Option ManifestSummary :=
  match env.refetchManifest with
  | Except.ok m => some m
  | Except.error _ => none

/-- The manifest field of a watching payload, mapped from the re-fetched
manifest when present. -/
def manifestField (m : Option ManifestSummary) : Option ManifestInfo :=
  match m with
  | some u => some
      { totalFiles := u.totalFiles
        totalChunks := u.totalChunks
        lastUpdated := u.lastUpdated }
  | none => none

/-- handleBranchChange: emits a scanning status, fetches the manifest
(tolerating failure), emits a second scanning status, invokes the scan with
progress re-emissions, then on success re-fetches the manifest and emits
watching; any failure is caught and emitted as an error status. -/
def handleBranchChange (newBranch : String) (env : Env) : ReconResult :=
  let e1 : IndexerState :=
    { status := Status.scanning
      message := "Branch changed to " ++ newBranch ++ ", fetching manifest..."
      gitBranch := some newBranch }
  let manifest := manifestOf env
  let e2 : IndexerState :=
    { status := Status.scanning
      message := "Scanning branch " ++ newBranch ++ "..."
      gitBranch := some newBranch }
  let progressEmits : List IndexerState := env.progressTicks.map (fun p =>
    { status := Status.scanning
      message := "Scanning: " ++ toString p.filesProcessed ++ "/" ++
        toString p.filesTotal ++ " files (" ++ toString p.chunksIndexed ++ " chunks)"
      gitBranch := some newBranch })
  match env.scanOutcome with
  | Except.ok result =>
    if result.success then
      let updated := refetchedOf env
      let eW : IndexerState :=
        { status := Status.watching
          message := "Branch " ++ newBranch ++ " indexed successfully"
          gitBranch := some newBranch
          lastSyncTime := some env.now
          totalFiles := some result.filesProcessed
          totalChunks := some result.chunksIndexed
          manifest := manifestField updated }
      { emits := [e1, e2] ++ progressEmits ++ [eW], scanCalls := [manifest] }
    else
      let msg := "Scan failed with " ++ toString result.errors.length ++ " errors"
      let eE : IndexerState :=
        { status := Status.error
          message := "Failed to index branch " ++ newBranch ++ ": " ++ msg
          gitBranch := some newBranch
          error := some msg }
      { emits := [e1, e2] ++ progressEmits ++ [eE], scanCalls := [manifest] }
  | Except.error msg =>
      let eE : IndexerState :=
        { status := Status.error
          message := "Failed to index branch " ++ newBranch ++ ": " ++ msg
          gitBranch := some newBranch
          error := some msg }
      { emits := [e1, e2] ++ progressEmits ++ [eE], scanCalls := [manifest] }

/-- handleCommit: emits one scanning status, fetches the manifest (tolerating
failure), invokes the scan with progress re-emissions, then on success
re-fetches the manifest and emits watching; any failure is caught and emitted
as an error status. -/
def handleCommit (branch : String) (env : Env) : ReconResult :=
  let e1 : IndexerState :=
    { status := Status.scanning
      message := "New commit detected, updating index..."
      gitBranch := some branch }
  let manifest := manifestOf env
  let progressEmits : List IndexerState := env.progressTicks.map (fun p =>
    { status := Status.scanning
      message := "Updating: " ++ toString p.filesProcessed ++ "/" ++
        toString p.filesTotal ++ " files (" ++ toString p.chunksIndexed ++ " chunks)"
      gitBranch := some branch })
  match env.scanOutcome with
  | Except.ok result =>
    if result.success then
      let updated := refetchedOf env
      let eW : IndexerState :=
        { status := Status.watching
          message := "Index updated after commit"
          gitBranch := some branch
          lastSyncTime := some env.now
          totalFiles := some result.filesProcessed
          totalChunks := some result.chunksIndexed
          manifest := manifestField updated }
      { emits := [e1] ++ progressEmits ++ [eW], scanCalls := [manifest] }
    else
      let msg := "Scan failed with " ++ toString result.errors.length ++ " errors"
      let eE : IndexerState :=
        { status := Status.error
          message := "Failed to update index after commit: " ++ msg
          gitBranch := some branch
          error := some msg }
      { emits := [e1] ++ progressEmits ++ [eE], scanCalls := [manifest] }
  | Except.error msg =>
      let eE : IndexerState :=
        { status := Status.error
          message := "Failed to update index after commit: " ++ msg
          gitBranch := some branch
          error := some msg }
      { emits := [e1] ++ progressEmits ++ [eE], scanCalls := [manifest] }

/-- Which code path one invocation of handleGitChange took. -/
inductive Classification where
  | skipped
  | detachedEntered
  | unreadable
  | faulted
  | noChange
  | branchSwitch
  | revisionAdvance
  | establish
  deriving DecidableEq

/-- Observable outcome of one invocation of handleGitChange. -/
structure HandlerResult where
  finalState : WatcherState
  emits : List IndexerState
  scanCalls : List (Option ManifestSummary)
  readGitState : Bool
  checkedDetached : Bool
  classification : Classification
  deriving DecidableEq

/-- The immediate return taken when the in-flight guard is set: no git read,
no classification, no scan, no emission, state untouched. -/
def skipResult (st : WatcherState) : HandlerResult :=
  { finalState := st
    emits := []
    scanCalls := []
    readGitState := false
    checkedDetached := false
    classification := Classification.skipped }

/-- The body of handleGitChange after the guard has passed and the in-flight
flag has been set (the try block, with the finally clearing the flag on every
exit).  st is the state with isProcessing already true. -/
def handleGitChangeBody (st : WatcherState) (env : Env) : HandlerResult :=
  match env.isDetachedHead with
  | Except.error _ =>
      { finalState := { st with isProcessing := false }
        emits := []
        scanCalls := []
        readGitState := false
        checkedDetached := true
        classification := Classification.faulted }
  | Except.ok true =>
      { finalState := { currentState := none, isProcessing := false }
        emits := [{ status := Status.idle
                    message := "Detached HEAD state - indexing disabled"
                    gitBranch := none }]
        scanCalls := []
        readGitState := false
        checkedDetached := true
        classification := Classification.detachedEntered }
  | Except.ok false =>
    match env.getGitState with
    | Except.error _ =>
        { finalState := { st with isProcessing := false }
          emits := []
          scanCalls := []
          readGitState := true
          checkedDetached := true
          classification := Classification.faulted }
    | Except.ok none =>
        { finalState := { st with isProcessing := false }
          emits := []
          scanCalls := []
          readGitState := true
          checkedDetached := true
          classification := Classification.unreadable }
    | Except.ok (some newState) =>
      match st.currentState with
      | some cur =>
        if cur.branch = newState.branch ∧ cur.commit = newState.commit then
          { finalState := { st with isProcessing := false }
            emits := []
            scanCalls := []
            readGitState := true
            checkedDetached := true
            classification := Classification.noChange }
        else if cur.branch ≠ newState.branch then
          let r := handleBranchChange newState.branch env
          { finalState := { currentState := some newState, isProcessing := false }
            emits := r.emits
            scanCalls := r.scanCalls
            readGitState := true
            checkedDetached := true
            classification := Classification.branchSwitch }
        else
          let r := handleCommit newState.branch env
          { finalState := { currentState := some newState, isProcessing := false }
            emits := r.emits
            scanCalls := r.scanCalls
            readGitState := true
            checkedDetached := true
            classification := Classification.revisionAdvance }
      | none =>
          let r := handleBranchChange newState.branch env
          { finalState := { currentState := some newState, isProcessing := false }
            emits := r.emits
            scanCalls := r.scanCalls
            readGitState := true
            checkedDetached := true
            classification := Classification.establish }

/-- handleGitChange: the trigger handler.  If the in-flight flag is set the
trigger is discarded at once; otherwise the flag is set and the body runs,
clearing the flag on every exit path. -/
def handleGitChange (st : WatcherState) (env : Env) : HandlerResult :=
  if st.isProcessing then skipResult st
  else handleGitChangeBody { st with isProcessing := true } env

/-- Bool test: the trigger reaches a reconciliation with its scan, i.e. the
repository is not detached, the state is readable, and either there is no
previous snapshot or branch or commit differ. -/
def reachesScan (cur : Option GitStateSnapshot) (env : Env) : Bool :=
  match env.isDetachedHead, env.getGitState with
  | Except.ok false, Except.ok (some n) =>
    match cur with
    | none => true
    | some c => ! (c.branch == n.branch && c.commit == n.commit)
  | _, _ => false

/-- Resources held by one watcher instance: the poll timer, the three push
watcher channels, and whether the onStateChange reference captured by the
handler closures has been cleared. -/
structure WatcherHandle where
  pollActive : Bool
  headWatcherActive : Bool
  refsWatcherActive : Bool
  packedRefsWatcherActive : Bool
  reporterCleared : Bool
  deriving DecidableEq

/-- The handle as set up by createGitWatcher: all channels live, onStateChange
held by the closures. -/
def initialHandle : WatcherHandle :=
  { pollActive := true
    headWatcherActive := true
    refsWatcherActive := true
    packedRefsWatcherActive := true
    reporterCleared := false }

/-- Disposal: the composite disposable disposes each push watcher subscription
and the poll-stopping disposable (clearInterval); no step of the disposal path
touches the onStateChange reference the closures captured. -/
def disposeWatcher (h : WatcherHandle) : WatcherHandle :=
  { pollActive := false
    headWatcherActive := false
    refsWatcherActive := false
    packedRefsWatcherActive := false
    reporterCleared := h.reporterCleared }

/-- What a reconciliation finishing while handle h is current delivers to the
caller: each onStateChange invocation goes through unless the callback
reference has been cleared. -/
def deliveredEmits (h : WatcherHandle) (emits : List IndexerState) : List IndexerState :=
  if h.reporterCleared then [] else emits

/-- Erase the human-readable message of an emission, keeping every other
payload field. -/
def eraseMsg (e : IndexerState) : IndexerState := { e with message := "" }

/-! ## Concrete fixtures used by witnesses and counterexamples -/

/-- Snapshot: main at aaa111. -/
def snapMainA : GitStateSnapshot :=
  { branch := "main", commit := "aaa111", isDetached := false }

/-- Snapshot: main at bbb222. -/
def snapMainB : GitStateSnapshot :=
  { branch := "main", commit := "bbb222", isDetached := false }

/-- Snapshot: feature-x at ccc333. -/
def snapFeat : GitStateSnapshot :=
  { branch := "feature-x", commit := "ccc333", isDetached := false }

/-- Environment: a readable state on main at bbb222, no manifest, scan succeeds. -/
def envAdvance : Env :=
  { isDetachedHead := Except.ok false
    getGitState := Except.ok (some snapMainB)
    manifestFetch := Except.error "no manifest"
    scanOutcome := Except.ok { success := true, filesProcessed := 5, chunksIndexed := 12, errors := [] }
    progressTicks := []
    refetchManifest := Except.error "still no manifest"
    now := 1000 }

/-- Environment: a readable state on feature-x, no manifest, scan succeeds. -/
def envBranch : Env :=
  { isDetachedHead := Except.ok false
    getGitState := Except.ok (some snapFeat)
    manifestFetch := Except.error "no manifest"
    scanOutcome := Except.ok { success := true, filesProcessed := 5, chunksIndexed := 12, errors := [] }
    progressTicks := []
    refetchManifest := Except.error "still no manifest"
    now := 1000 }

/-- Environment: a readable state on main at bbb222, scan fails with one error. -/
def envScanFail : Env :=
  { isDetachedHead := Except.ok false
    getGitState := Except.ok (some snapMainB)
    manifestFetch := Except.error "no manifest"
    scanOutcome := Except.ok { success := false, filesProcessed := 0, chunksIndexed := 0, errors := ["boom"] }
    progressTicks := []
    refetchManifest := Except.error "still no manifest"
    now := 1000 }

/-- Environment: a readable state on main at aaa111 (no change from snapMainA). -/
def envSame : Env :=
  { isDetachedHead := Except.ok false
    getGitState := Except.ok (some snapMainA)
    manifestFetch := Except.error "no manifest"
    scanOutcome := Except.ok { success := true, filesProcessed := 0, chunksIndexed := 0, errors := [] }
    progressTicks := []
    refetchManifest := Except.error "no manifest"
    now := 1000 }

/-- Environment: repository observed in detached HEAD state. -/
def envDetached : Env :=
  { isDetachedHead := Except.ok true
    getGitState := Except.ok none
    manifestFetch := Except.error "no manifest"
    scanOutcome := Except.ok { success := true, filesProcessed := 0, chunksIndexed := 0, errors := [] }
    progressTicks := []
    refetchManifest := Except.error "no manifest"
    now := 1000 }

/-! ## Helper lemmas -/

/-- When the in-flight guard is set, the handler returns the skip result. -/
lemma handleGitChange_of_processing (st : WatcherState) (env : Env)
    (h : st.isProcessing = true) :
    handleGitChange st env = skipResult st := by
  simp [handleGitChange, h]

/-- When the guard is clear, the handler runs the body with the flag set. -/
lemma handleGitChange_of_not_processing (st : WatcherState) (env : Env)
    (h : st.isProcessing = false) :
    handleGitChange st env = handleGitChangeBody { st with isProcessing := true } env := by
  simp [handleGitChange, h]

/-- The body clears the in-flight flag on every exit path. -/
lemma body_isProcessing_false (st : WatcherState) (env : Env) :
    (handleGitChangeBody st env).finalState.isProcessing = false := by
  unfold handleGitChangeBody
  repeat' split
  all_goals rfl

/-- handleBranchChange invokes the scan exactly once, with the fetched
manifest (or none when the fetch threw). -/
lemma handleBranchChange_scanCalls (b : String) (env : Env) :
    (handleBranchChange b env).scanCalls = [manifestOf env] := by
  unfold handleBranchChange
  repeat' split
  all_goals rfl

/-- handleCommit invokes the scan exactly once, with the fetched manifest (or
none when the fetch threw). -/
lemma handleCommit_scanCalls (b : String) (env : Env) :
    (handleCommit b env).scanCalls = [manifestOf env] := by
  unfold handleCommit
  repeat' split
  all_goals rfl

/-- When the trigger reaches a reconciliation, the body invokes the scan
exactly once, with the fetched manifest. -/
lemma body_scanCalls_of_reachesScan (st : WatcherState) (env : Env)
    (h : reachesScan st.currentState env = true) :
    (handleGitChangeBody st env).scanCalls = [manifestOf env] := by
  unfold handleGitChangeBody
  repeat' split
  all_goals simp_all [reachesScan, handleBranchChange_scanCalls, handleCommit_scanCalls]

/-- Structure eta: clearing an already-clear flag is the identity. -/
lemma watcher_eta (st : WatcherState) (h : st.isProcessing = false) :
    { st with isProcessing := false } = st := by
  cases st
  simp_all

/-- A string with a non-empty left component is non-empty. -/
lemma length_append_pos_left (s t : String) (h : 0 < s.length) :
    0 < (s ++ t).length := by
  rw [String.length_append]
  omega

/-- When the scan returns success false, handleBranchChange ends with an
error emission carrying the scan-failure cause. -/
lemma handleBranchChange_scanFail_last (b : String) (env : Env) (r : ScanResult)
    (hs : env.scanOutcome = Except.ok r) (hf : r.success = false) :
    (handleBranchChange b env).emits.getLast? = some
      { status := Status.error
        message := "Failed to index branch " ++ b ++ ": " ++
          ("Scan failed with " ++ toString r.errors.length ++ " errors")
        gitBranch := some b
        error := some ("Scan failed with " ++ toString r.errors.length ++ " errors") } := by
  unfold handleBranchChange
  rw [hs]
  simp only [hf, Bool.false_eq_true, if_false]
  exact List.getLast?_concat _

/-- When the scan returns success false, handleCommit ends with an error
emission carrying the scan-failure cause. -/
lemma handleCommit_scanFail_last (b : String) (env : Env) (r : ScanResult)
    (hs : env.scanOutcome = Except.ok r) (hf : r.success = false) :
    (handleCommit b env).emits.getLast? = some
      { status := Status.error
        message := "Failed to update index after commit: " ++
          ("Scan failed with " ++ toString r.errors.length ++ " errors")
        gitBranch := some b
        error := some ("Scan failed with " ++ toString r.errors.length ++ " errors") } := by
  unfold handleCommit
  rw [hs]
  simp only [hf, Bool.false_eq_true, if_false]
  exact List.getLast?_concat _

/-- When the scan succeeds, handleBranchChange ends with a watching emission
carrying the scan counts and the re-fetched manifest. -/
lemma handleBranchChange_success_last (b : String) (env : Env) (r : ScanResult)
    (hs : env.scanOutcome = Except.ok r) (hf : r.success = true) :
    (handleBranchChange b env).emits.getLast? = some
      { status := Status.watching
        message := "Branch " ++ b ++ " indexed successfully"
        gitBranch := some b
        lastSyncTime := some env.now
        totalFiles := some r.filesProcessed
        totalChunks := some r.chunksIndexed
        manifest := manifestField (refetchedOf env) } := by
  unfold handleBranchChange
  rw [hs]
  simp only [hf, if_true]
  exact List.getLast?_concat _

/-- When the scan succeeds, handleCommit ends with a watching emission
carrying the scan counts and the re-fetched manifest. -/
lemma handleCommit_success_last (b : String) (env : Env) (r : ScanResult)
    (hs : env.scanOutcome = Except.ok r) (hf : r.success = true) :
    (handleCommit b env).emits.getLast? = some
      { status := Status.watching
        message := "Index updated after commit"
        gitBranch := some b
        lastSyncTime := some env.now
        totalFiles := some r.filesProcessed
        totalChunks := some r.chunksIndexed
        manifest := manifestField (refetchedOf env) } := by
  unfold handleCommit
  rw [hs]
  simp only [hf, if_true]
  exact List.getLast?_concat _

/-- When the scan succeeds, no emission of handleBranchChange carries the
error status, whatever the two manifest fetches did. -/
lemma handleBranchChange_success_no_error (b : String) (env : Env) (r : ScanResult)
    (hs : env.scanOutcome = Except.ok r) (hf : r.success = true) :
    ∀ e ∈ (handleBranchChange b env).emits, e.status ≠ Status.error := by
  unfold handleBranchChange
  rw [hs]
  simp only [hf, if_true]
  intro e he
  simp only [List.mem_append, List.mem_cons, List.mem_singleton, List.mem_map,
    List.not_mem_nil, or_false] at he
  rcases he with ((rfl | rfl) | ⟨p, hp, rfl⟩) | rfl <;> simp

/-- When the scan succeeds, no emission of handleCommit carries the error
status, whatever the two manifest fetches did. -/
lemma handleCommit_success_no_error (b : String) (env : Env) (r : ScanResult)
    (hs : env.scanOutcome = Except.ok r) (hf : r.success = true) :
    ∀ e ∈ (handleCommit b env).emits, e.status ≠ Status.error := by
  unfold handleCommit
  rw [hs]
  simp only [hf, if_true]
  intro e he
  simp only [List.mem_append, List.mem_cons, List.mem_singleton, List.mem_map,
    List.not_mem_nil, or_false] at he
  rcases he with (rfl | ⟨p, hp, rfl⟩) | rfl <;> simp

/-- When the trigger reaches a reconciliation, the body ran handleBranchChange
or handleCommit on the new branch, replaced the snapshot with the new state,
and cleared the flag. -/
lemma body_of_reachesScan (st : WatcherState) (env : Env)
    (h : reachesScan st.currentState env = true) :
    ∃ n, env.getGitState = Except.ok (some n) ∧
      (handleGitChangeBody st env).finalState =
        { currentState := some n, isProcessing := false } ∧
      ((handleGitChangeBody st env).emits = (handleBranchChange n.branch env).emits ∨
       (handleGitChangeBody st env).emits = (handleCommit n.branch env).emits) := by
  unfold handleGitChangeBody
  repeat' split
  all_goals simp_all [reachesScan]

/-! ## Claim theorems -/

/-- C1: Single-flight.  A trigger arriving while the in-flight flag is set
returns immediately: no detached check, no git state read, no classification,
no scan, no emission.  Two back-to-back triggers, the second arriving while
the first reconciliation's scan has not returned (so it observes the state
with the flag set and the snapshot not yet replaced), produce exactly one
scan-pipeline invocation in total. -/
theorem c1_single_flight (st stBusy : WatcherState) (env envBusy env2 : Env)
    (hbusy : stBusy.isProcessing = true)
    (h0 : st.isProcessing = false)
    (h1 : reachesScan st.currentState env = true) :
    handleGitChange stBusy envBusy = skipResult stBusy ∧
    (handleGitChange st env).scanCalls.length +
      (handleGitChange { st with isProcessing := true } env2).scanCalls.length = 1 := by
  constructor
  · exact handleGitChange_of_processing stBusy envBusy hbusy
  · rw [handleGitChange_of_not_processing st env h0,
      handleGitChange_of_processing { st with isProcessing := true } env2 rfl]
    rw [body_scanCalls_of_reachesScan { st with isProcessing := true } env h1]
    rfl

/-- C1 witness at concrete inputs: a busy-state trigger is skipped, and the
back-to-back pair invokes the scan exactly once. -/
theorem c1_single_flight_witness :
    handleGitChange { currentState := some snapMainA, isProcessing := true } envBranch =
      skipResult { currentState := some snapMainA, isProcessing := true } ∧
    (handleGitChange { currentState := some snapMainA, isProcessing := false } envAdvance).scanCalls.length +
      (handleGitChange { currentState := some snapMainA, isProcessing := true } envBranch).scanCalls.length
      = 1 :=
  c1_single_flight { currentState := some snapMainA, isProcessing := false }
    { currentState := some snapMainA, isProcessing := true }
    envAdvance envBranch envBranch rfl rfl (by decide)

/-- Inversion: the revision-advance path runs only when there was a previous
snapshot, the new state is readable, the branch is unchanged and the commit
differs. -/
lemma body_revisionAdvance_inversion (st : WatcherState) (env : Env)
    (h : (handleGitChangeBody st env).classification = Classification.revisionAdvance) :
    ∃ c n, st.currentState = some c ∧ env.getGitState = Except.ok (some n) ∧
      c.branch = n.branch ∧ c.commit ≠ n.commit := by
  unfold handleGitChangeBody at h
  repeat' split at h
  all_goals simp_all

/-- C2: Branch-switch priority.  When both snapshots are readable and the
branch differs, the branch-change path runs (with handleBranchChange's
emissions), whatever the commits; and the revision-advance path runs only
when the branch is unchanged and the commit differs. -/
theorem c2_branch_priority (st stR : WatcherState) (env envR : Env)
    (c n : GitStateSnapshot)
    (h0 : st.isProcessing = false)
    (hd : env.isDetachedHead = Except.ok false)
    (hg : env.getGitState = Except.ok (some n))
    (hc : st.currentState = some c)
    (hb : c.branch ≠ n.branch)
    (hrev : (handleGitChange stR envR).classification = Classification.revisionAdvance) :
    (handleGitChange st env).classification = Classification.branchSwitch ∧
    (handleGitChange st env).emits = (handleBranchChange n.branch env).emits ∧
    ∃ cR nR, stR.currentState = some cR ∧ envR.getGitState = Except.ok (some nR) ∧
      cR.branch = nR.branch ∧ cR.commit ≠ nR.commit := by
  refine ⟨?_, ?_, ?_⟩
  · rw [handleGitChange_of_not_processing st env h0]
    simp [handleGitChangeBody, hd, hg, hc, hb]
  · rw [handleGitChange_of_not_processing st env h0]
    simp [handleGitChangeBody, hd, hg, hc, hb]
  · by_cases hp : stR.isProcessing = true
    · rw [handleGitChange_of_processing stR envR hp] at hrev
      simp [skipResult] at hrev
    · rw [handleGitChange_of_not_processing stR envR (by simpa using hp)] at hrev
      obtain ⟨cR, nR, hcR, hnR, hbr, hcm⟩ :=
        body_revisionAdvance_inversion { stR with isProcessing := true } envR hrev
      exact ⟨cR, nR, hcR, hnR, hbr, hcm⟩

/-- C2 witness at concrete inputs: previous main at aaa111, current feature-x
at ccc333 (both branch and commit differ) classifies as branch switch; a
revision-advance run on main aaa111 to bbb222 certifies the only-when part. -/
theorem c2_branch_priority_witness :
    (handleGitChange { currentState := some snapMainA, isProcessing := false } envBranch).classification
      = Classification.branchSwitch ∧
    (handleGitChange { currentState := some snapMainA, isProcessing := false } envBranch).emits
      = (handleBranchChange snapFeat.branch envBranch).emits ∧
    ∃ cR nR, ({ currentState := some snapMainA, isProcessing := false } : WatcherState).currentState
        = some cR ∧
      envAdvance.getGitState = Except.ok (some nR) ∧
      cR.branch = nR.branch ∧ cR.commit ≠ nR.commit :=
  c2_branch_priority { currentState := some snapMainA, isProcessing := false }
    { currentState := some snapMainA, isProcessing := false }
    envBranch envAdvance snapMainA snapFeat rfl rfl rfl rfl (by decide) (by decide)

/-- C5: Detached HEAD.  A trigger observing a detached HEAD emits exactly one
idle status whose message names the detached mode with no branch, invokes no
scan, and clears the last-known snapshot. -/
theorem c5_detached (st : WatcherState) (env : Env)
    (h0 : st.isProcessing = false)
    (hd : env.isDetachedHead = Except.ok true) :
    (handleGitChange st env).finalState.currentState = none ∧
    (handleGitChange st env).scanCalls = [] ∧
    (handleGitChange st env).classification = Classification.detachedEntered ∧
    (handleGitChange st env).emits =
      [{ status := Status.idle
         message := "Detached HEAD state - indexing disabled"
         gitBranch := none }] := by
  rw [handleGitChange_of_not_processing st env h0]
  unfold handleGitChangeBody
  rw [hd]
  exact ⟨rfl, rfl, rfl, rfl⟩

/-- C5 witness at a concrete detached environment. -/
theorem c5_detached_witness :
    (handleGitChange { currentState := some snapMainA, isProcessing := false } envDetached).finalState.currentState = none ∧
    (handleGitChange { currentState := some snapMainA, isProcessing := false } envDetached).scanCalls = [] ∧
    (handleGitChange { currentState := some snapMainA, isProcessing := false } envDetached).classification
      = Classification.detachedEntered ∧
    (handleGitChange { currentState := some snapMainA, isProcessing := false } envDetached).emits =
      [{ status := Status.idle
         message := "Detached HEAD state - indexing disabled"
         gitBranch := none }] :=
  c5_detached { currentState := some snapMainA, isProcessing := false } envDetached rfl rfl

/-- C6: NoChange is side-effect free.  Equal branch and commit classify as no
change: no emission, no scan, and the watcher state (snapshot and flag) is
returned unchanged. -/
theorem c6_nochange_frame (st : WatcherState) (env : Env) (c n : GitStateSnapshot)
    (h0 : st.isProcessing = false)
    (hd : env.isDetachedHead = Except.ok false)
    (hg : env.getGitState = Except.ok (some n))
    (hc : st.currentState = some c)
    (hb : c.branch = n.branch) (hcm : c.commit = n.commit) :
    (handleGitChange st env).classification = Classification.noChange ∧
    (handleGitChange st env).emits = [] ∧
    (handleGitChange st env).scanCalls = [] ∧
    (handleGitChange st env).finalState = st := by
  rw [handleGitChange_of_not_processing st env h0]
  unfold handleGitChangeBody
  rw [hd, hg]
  simp only [hc]
  rw [if_pos ⟨hb, hcm⟩]
  refine ⟨rfl, rfl, rfl, ?_⟩
  rw [← hc]
  exact watcher_eta st h0

/-- C6 witness: repeated observation of main at aaa111 is a no-op. -/
theorem c6_nochange_frame_witness :
    (handleGitChange { currentState := some snapMainA, isProcessing := false } envSame).classification
      = Classification.noChange ∧
    (handleGitChange { currentState := some snapMainA, isProcessing := false } envSame).emits = [] ∧
    (handleGitChange { currentState := some snapMainA, isProcessing := false } envSame).scanCalls = [] ∧
    (handleGitChange { currentState := some snapMainA, isProcessing := false } envSame).finalState
      = { currentState := some snapMainA, isProcessing := false } :=
  c6_nochange_frame { currentState := some snapMainA, isProcessing := false } envSame
    snapMainA snapMainA rfl rfl rfl rfl rfl rfl

/-- C3: Scan failure handling.  When a trigger reaches a reconciliation and
the scan returns success false, the last emission is an error status with a
non-empty message, the handler returns with the flag clear (the watcher stays
alive), the scan ran exactly once, and a subsequent trigger that classifies
as a change again runs a full reconciliation with exactly one scan. -/
theorem c3_scan_failure (st : WatcherState) (env1 env2 : Env) (r : ScanResult)
    (h0 : st.isProcessing = false)
    (h1 : reachesScan st.currentState env1 = true)
    (hs : env1.scanOutcome = Except.ok r)
    (hf : r.success = false)
    (h2 : reachesScan (handleGitChange st env1).finalState.currentState env2 = true) :
    (∃ e, (handleGitChange st env1).emits.getLast? = some e ∧
      e.status = Status.error ∧ 0 < e.message.length) ∧
    (handleGitChange st env1).finalState.isProcessing = false ∧
    (handleGitChange st env1).scanCalls.length = 1 ∧
    (handleGitChange (handleGitChange st env1).finalState env2).scanCalls.length = 1 := by
  have hbody := handleGitChange_of_not_processing st env1 h0
  have hp2 : (handleGitChange st env1).finalState.isProcessing = false := by
    rw [hbody]
    exact body_isProcessing_false _ env1
  refine ⟨?_, hp2, ?_, ?_⟩
  · rw [hbody]
    obtain ⟨n, hg, hfin, hem⟩ := body_of_reachesScan { st with isProcessing := true } env1 h1
    rcases hem with hem | hem
    · rw [hem]
      refine ⟨_, handleBranchChange_scanFail_last n.branch env1 r hs hf, rfl, ?_⟩
      exact length_append_pos_left _ _
        (length_append_pos_left _ _ (length_append_pos_left _ _ (by decide)))
    · rw [hem]
      refine ⟨_, handleCommit_scanFail_last n.branch env1 r hs hf, rfl, ?_⟩
      exact length_append_pos_left _ _ (by decide)
  · rw [hbody, body_scanCalls_of_reachesScan { st with isProcessing := true } env1 h1]
    rfl
  · rw [handleGitChange_of_not_processing _ env2 hp2,
      body_scanCalls_of_reachesScan
        { currentState := (handleGitChange st env1).finalState.currentState
          isProcessing := true } env2 h2]
    rfl

/-- C3 witness: a failing scan on a commit advance, then a branch switch that
reconciles normally. -/
theorem c3_scan_failure_witness :
    (∃ e, (handleGitChange { currentState := some snapMainA, isProcessing := false } envScanFail).emits.getLast?
        = some e ∧ e.status = Status.error ∧ 0 < e.message.length) ∧
    (handleGitChange { currentState := some snapMainA, isProcessing := false } envScanFail).finalState.isProcessing
      = false ∧
    (handleGitChange { currentState := some snapMainA, isProcessing := false } envScanFail).scanCalls.length = 1 ∧
    (handleGitChange
      (handleGitChange { currentState := some snapMainA, isProcessing := false } envScanFail).finalState
      envBranch).scanCalls.length = 1 :=
  c3_scan_failure { currentState := some snapMainA, isProcessing := false } envScanFail envBranch
    { success := false, filesProcessed := 0, chunksIndexed := 0, errors := ["boom"] }
    rfl (by decide) rfl rfl (by decide)

/-- C4: Manifest-fetch tolerance.  When the manifest fetch throws, both
reconciliation handlers still invoke the scan, with no manifest; when the
scan then succeeds the final emission is watching, and no emission at all is
an error status, whatever either manifest fetch did. -/
theorem c4_manifest_tolerated (b : String) (env : Env) (s : String) (r : ScanResult)
    (hm : env.manifestFetch = Except.error s)
    (hs : env.scanOutcome = Except.ok r)
    (hf : r.success = true) :
    (handleBranchChange b env).scanCalls = [none] ∧
    (∃ e, (handleBranchChange b env).emits.getLast? = some e ∧ e.status = Status.watching) ∧
    (∀ e ∈ (handleBranchChange b env).emits, e.status ≠ Status.error) ∧
    (handleCommit b env).scanCalls = [none] ∧
    (∃ e, (handleCommit b env).emits.getLast? = some e ∧ e.status = Status.watching) ∧
    (∀ e ∈ (handleCommit b env).emits, e.status ≠ Status.error) := by
  have hnone : manifestOf env = none := by simp [manifestOf, hm]
  refine ⟨?_, ⟨_, handleBranchChange_success_last b env r hs hf, rfl⟩,
    handleBranchChange_success_no_error b env r hs hf, ?_,
    ⟨_, handleCommit_success_last b env r hs hf, rfl⟩,
    handleCommit_success_no_error b env r hs hf⟩
  · rw [handleBranchChange_scanCalls, hnone]
  · rw [handleCommit_scanCalls, hnone]

/-- C4 witness: manifest fetch throws for feature-x, scan succeeds. -/
theorem c4_manifest_tolerated_witness :
    (handleBranchChange "feature-x" envBranch).scanCalls = [none] ∧
    (∃ e, (handleBranchChange "feature-x" envBranch).emits.getLast? = some e ∧
      e.status = Status.watching) ∧
    (∀ e ∈ (handleBranchChange "feature-x" envBranch).emits, e.status ≠ Status.error) ∧
    (handleCommit "feature-x" envBranch).scanCalls = [none] ∧
    (∃ e, (handleCommit "feature-x" envBranch).emits.getLast? = some e ∧
      e.status = Status.watching) ∧
    (∀ e ∈ (handleCommit "feature-x" envBranch).emits, e.status ≠ Status.error) :=
  c4_manifest_tolerated "feature-x" envBranch "no manifest"
    { success := true, filesProcessed := 5, chunksIndexed := 12, errors := [] }
    rfl rfl rfl

/-- C10: Snapshot replacement is unconditional on reconciliation success.
After a classified change the snapshot is replaced by the new state (the
environment is unconstrained, so this covers reconciliations ending in an
error status), and an immediately repeated trigger observing the same git
state classifies as no change: no scan, no emission. -/
theorem c10_snapshot_replaced (st : WatcherState) (env1 env2 : Env)
    (c n : GitStateSnapshot)
    (h0 : st.isProcessing = false)
    (hd1 : env1.isDetachedHead = Except.ok false)
    (hg1 : env1.getGitState = Except.ok (some n))
    (hc : st.currentState = some c)
    (hch : ¬(c.branch = n.branch ∧ c.commit = n.commit))
    (hd2 : env2.isDetachedHead = Except.ok false)
    (hg2 : env2.getGitState = Except.ok (some n)) :
    (handleGitChange st env1).finalState = { currentState := some n, isProcessing := false } ∧
    (handleGitChange (handleGitChange st env1).finalState env2).classification
      = Classification.noChange ∧
    (handleGitChange (handleGitChange st env1).finalState env2).emits = [] ∧
    (handleGitChange (handleGitChange st env1).finalState env2).scanCalls = [] := by
  have h1 : reachesScan st.currentState env1 = true := by
    simp [reachesScan, hd1, hg1, hc]
    tauto
  have hbody := handleGitChange_of_not_processing st env1 h0
  have hF : (handleGitChange st env1).finalState
      = { currentState := some n, isProcessing := false } := by
    obtain ⟨m, hg, hfin, -⟩ := body_of_reachesScan { st with isProcessing := true } env1 h1
    rw [hg1] at hg
    obtain rfl : n = m := by simpa using hg
    rw [hbody]
    exact hfin
  refine ⟨hF, ?_, ?_, ?_⟩ <;>
    rw [hF, handleGitChange_of_not_processing _ env2 rfl] <;>
    unfold handleGitChangeBody <;>
    rw [hd2, hg2] <;>
    simp

/-- C10 witness: a commit advance whose scan fails still replaces the
snapshot, and the repeated trigger is a no-op. -/
theorem c10_snapshot_replaced_witness :
    (handleGitChange { currentState := some snapMainA, isProcessing := false } envScanFail).finalState
      = { currentState := some snapMainB, isProcessing := false } ∧
    (handleGitChange
      (handleGitChange { currentState := some snapMainA, isProcessing := false } envScanFail).finalState
      envScanFail).classification = Classification.noChange ∧
    (handleGitChange
      (handleGitChange { currentState := some snapMainA, isProcessing := false } envScanFail).finalState
      envScanFail).emits = [] ∧
    (handleGitChange
      (handleGitChange { currentState := some snapMainA, isProcessing := false } envScanFail).finalState
      envScanFail).scanCalls = [] :=
  c10_snapshot_replaced { currentState := some snapMainA, isProcessing := false }
    envScanFail envScanFail snapMainA snapMainB rfl rfl rfl rfl (by decide) rfl rfl

/-- C9: In-flight flag invariant.  Whatever the environment does (detached,
unreadable, throwing calls, failing or succeeding scans), a trigger admitted
past the guard leaves the in-flight flag false on return. -/
theorem c9_inflight_cleared (st : WatcherState) (env : Env)
    (h0 : st.isProcessing = false) :
    (handleGitChange st env).finalState.isProcessing = false := by
  rw [handleGitChange_of_not_processing st env h0]
  exact body_isProcessing_false { st with isProcessing := true } env

/-- C9 witness at a concrete successful reconciliation. -/
theorem c9_inflight_cleared_witness :
    (handleGitChange { currentState := some snapMainA, isProcessing := false } envAdvance).finalState.isProcessing
      = false :=
  c9_inflight_cleared { currentState := some snapMainA, isProcessing := false } envAdvance rfl

/-- C7 counterexample: disposal does not clear the status reporter reference,
and a reconciliation in flight at disposal time still delivers its
onStateChange emissions after disposal. -/
theorem c7_disposal_counterexample :
    (disposeWatcher initialHandle).reporterCleared = false ∧
    deliveredEmits (disposeWatcher initialHandle)
      (handleGitChange { currentState := some snapMainA, isProcessing := false } envAdvance).emits
      ≠ [] := by
  refine ⟨rfl, ?_⟩
  intro h
  have hlen := congrArg List.length h
  have h1 : (deliveredEmits (disposeWatcher initialHandle)
      (handleGitChange { currentState := some snapMainA, isProcessing := false } envAdvance).emits).length
      = 2 := rfl
  rw [h1] at hlen
  exact absurd hlen (by decide)

/-- C7 amended: disposal stops the poll timer and unsubscribes every push
watcher, and leaves the reporter reference exactly as it was — in particular
never cleared, so an in-flight reconciliation finishing after disposal still
delivers all its emissions. -/
theorem c7_disposal_amended (h : WatcherHandle) (st : WatcherState) (env : Env) :
    (disposeWatcher h).pollActive = false ∧
    (disposeWatcher h).headWatcherActive = false ∧
    (disposeWatcher h).refsWatcherActive = false ∧
    (disposeWatcher h).packedRefsWatcherActive = false ∧
    (disposeWatcher h).reporterCleared = h.reporterCleared ∧
    deliveredEmits (disposeWatcher initialHandle) (handleGitChange st env).emits
      = (handleGitChange st env).emits :=
  ⟨rfl, rfl, rfl, rfl, rfl, rfl⟩

/-- C8 counterexample: with messages erased, the emission sequences of the two
reconciliation paths differ on the same environment — the branch path emits an
extra pre-scan scanning status (three emissions against two). -/
theorem c8_equiv_counterexample :
    (handleBranchChange "main" envAdvance).emits.map eraseMsg ≠
      (handleCommit "main" envAdvance).emits.map eraseMsg := by
  intro h
  have hlen := congrArg List.length h
  have h1 : ((handleBranchChange "main" envAdvance).emits.map eraseMsg).length = 3 := rfl
  have h2 : ((handleCommit "main" envAdvance).emits.map eraseMsg).length = 2 := rfl
  rw [h1, h2] at hlen
  exact absurd hlen (by decide)

/-- C8 amended: for every branch and environment, the branch-switch
reconciliation is the commit reconciliation plus one extra pre-scan scanning
emission, up to message text: erasing messages, its emission sequence is that
scanning status consed onto the commit path's erased sequence, and the scan
invocations (with their manifest arguments) agree exactly. -/
theorem c8_equiv_amended (b : String) (env : Env) :
    (handleBranchChange b env).emits.map eraseMsg =
      ({ status := Status.scanning, message := "", gitBranch := some b } : IndexerState)
        :: (handleCommit b env).emits.map eraseMsg ∧
    (handleBranchChange b env).scanCalls = (handleCommit b env).scanCalls := by
  constructor
  · unfold handleBranchChange handleCommit
    cases hs : env.scanOutcome with
    | ok r =>
      cases hr : r.success with
      | true => simp [hr, eraseMsg]
      | false => simp [hr, eraseMsg]
    | error m => simp [eraseMsg]
  · rw [handleBranchChange_scanCalls, handleCommit_scanCalls]

end GitWatcher
